import Mathlib

/-!
Shallow embedding of `src/Voice_text.py` (class `StreamlitSpeechProcessor` and the
`main` Streamlit flow) for checking the repository's specification.

Modelling conventions:
- The external collaborators declared out of scope by the spec (the gTTS engine,
  the pydub decoder/encoder/resampler, the Google recognizer) are passed in as
  explicit function or outcome parameters; everything the repository itself does
  (control flow, file bookkeeping, arithmetic, table lookups) is translated.
- The file system is an association list from paths to byte lists.
- Python exceptions are values: a raw body returns `Except`, and the boundary
  function (the `try/except` wrapper in the source) pattern-matches on it.
- Streamlit calls (`st.info`, `st.error`, `st.success`, ...) are modelled as a
  list of emitted message strings.
-/

namespace VoiceDetect

/-- Mutable selection state of `StreamlitSpeechProcessor` (`self.current_language`,
`self.voice_speed`). -/
structure ProcState where
  current_language : String
  voice_speed : String
deriving DecidableEq

/-- Table `self.languages`: fixed code → display-name table. -/
def languages : List (String × String) :=
  [("en", "English"), ("es", "Spanish"), ("fr", "French"), ("de", "German"),
   ("it", "Italian"), ("ja", "Japanese"), ("zh-CN", "Chinese")]

/-- Table `self.voice_speeds`: fixed tier → multiplier table. -/
def voice_speeds : List (String × ℚ) :=
  [("slow", 1/2), ("normal", 1), ("fast", 3/2), ("very_fast", 2)]

/-- Constructor `__init__`: `current_language = 'en'`, `voice_speed = 'normal'`. -/
def initState : ProcState := { current_language := "en", voice_speed := "normal" }

/-- A file system: paths mapped to byte contents. -/
abbrev FS := List (String × List ℕ)

/-- Write (create or overwrite) a file. -/
def fsWrite (fs : FS) (p : String) (c : List ℕ) : FS :=
  (p, c) :: fs.filter (fun e => e.1 ≠ p)

/-- Read a file, `none` when absent. -/
def fsRead (fs : FS) (p : String) : Option (List ℕ) :=
  fs.lookup p

/-- Method `set_language`: membership-validated selection; returns the Python return
value, the state afterwards, and the emitted messages. -/
def set_language (st : ProcState) (code : String) : Bool × ProcState × List String :=
  match languages.lookup code with
  | some name =>
      (true, { st with current_language := code },
       ["🌐 Language set to " ++ name ++ " (" ++ code ++ ")"])
  | none =>
      (false, st,
       ["❌ Unsupported language code: " ++ code,
        "🌐 Available languages: (language table)"])

/-- Method `set_voice_speed`: membership-validated selection. -/
def set_voice_speed (st : ProcState) (speed : String) : Bool × ProcState × List String :=
  match voice_speeds.lookup speed with
  | some _ =>
      (true, { st with voice_speed := speed },
       ["⏩ Voice speed set to " ++ speed])
  | none =>
      (false, st,
       ["❌ Unsupported speed: " ++ speed,
        "⏩ Available speeds: (speed table)"])

/-- A pydub `AudioSegment`: raw PCM samples plus a nominal frame rate. -/
structure AudioSegment where
  raw_data : List ℤ
  frame_rate : ℕ
deriving DecidableEq

/-- Call `audio._spawn(audio.raw_data, overrides={"frame_rate": r})`: keep the raw
sample data untouched and only declare a new nominal frame rate. -/
def spawn (a : AudioSegment) (newRate : ℕ) : AudioSegment :=
  { raw_data := a.raw_data, frame_rate := newRate }

/-- Python `int()` on a nonnegative rational (all call sites pass
`frame_rate * speed_factor ≥ 0`, where truncation towards zero is `floor`). -/
def pyInt (q : ℚ) : ℕ :=
  (Int.floor q).toNat

/-- Method `_adjust_audio_speed(filepath)`: read the file, decode it, respawn the raw
data at `int(frame_rate * speed_factor)`, resample back to the original frame
rate, re-export over the same path.  `resample` models pydub `set_frame_rate`,
`decode` models `AudioSegment.from_mp3` (with `none` for a decode exception),
`encode` models `export(format="mp3")`.  Every exception is caught inside the
function (the file system is returned unchanged and an error message emitted). -/
def adjust_audio_speed
    (resample : AudioSegment → ℕ → AudioSegment)
    (decode : List ℕ → Option AudioSegment)
    (encode : AudioSegment → List ℕ)
    (st : ProcState) (fs : FS) (filepath : String) : FS × List String :=
  match fsRead fs filepath with
  | none => (fs, ["❌ Error adjusting audio speed: missing file"])
  | some content =>
    match decode content with
    | none => (fs, ["❌ Error adjusting audio speed: decode failure"])
    | some audio =>
      match voice_speeds.lookup st.voice_speed with
      | none => (fs, ["❌ Error adjusting audio speed: unknown speed tier"])
      | some speed_factor =>
        let adjusted := spawn audio (pyInt ((audio.frame_rate : ℚ) * speed_factor))
        let adjusted2 := resample adjusted audio.frame_rate
        (fsWrite fs filepath (encode adjusted2),
         ["🔄 Audio speed adjusted to " ++ st.voice_speed])

/-- Body of `text_to_speech` (everything inside the `try`).  `engine` models
`gTTS(text=..., lang=...).save(...)` as a language- and text-dependent byte
result, `none` standing for a raised engine exception (including the empty-text
`AssertionError`); the `tld='com'` flag for English only selects an engine
variant and is absorbed into `engine`.  Returns the `Except`-valued result,
the file system and the emitted messages. -/
def ttsRaw
    (resample : AudioSegment → ℕ → AudioSegment)
    (decode : List ℕ → Option AudioSegment)
    (encode : AudioSegment → List ℕ)
    (engine : String → String → Option (List ℕ))
    (st : ProcState) (fs : FS) (text : String) (timestamp : ℕ)
    (output_filename : String) :
    Except String String × FS × List String :=
  let filepath := "speech_outputs/" ++ toString timestamp ++ "_" ++ output_filename
  match engine st.current_language text with
  | none => (Except.error "tts engine failure", fs, [])
  | some bytes =>
    let fs1 := fsWrite fs filepath bytes
    let step :=
      if st.voice_speed ≠ "normal" then
        adjust_audio_speed resample decode encode st fs1 filepath
      else (fs1, [])
    (Except.ok filepath, step.1, step.2 ++ ["✅ Speech saved to " ++ filepath])

/-- Method `text_to_speech`: the `try/except Exception` boundary around `ttsRaw`;
an error becomes a `None` return plus an error message. -/
def text_to_speech
    (resample : AudioSegment → ℕ → AudioSegment)
    (decode : List ℕ → Option AudioSegment)
    (encode : AudioSegment → List ℕ)
    (engine : String → String → Option (List ℕ))
    (st : ProcState) (fs : FS) (text : String) (timestamp : ℕ)
    (output_filename : String) :
    Option String × FS × List String :=
  let r := ttsRaw resample decode encode engine st fs text timestamp output_filename
  match r.1 with
  | Except.ok p => (some p, r.2.1, r.2.2)
  | Except.error e =>
      (none, r.2.1, r.2.2 ++ ["❌ Error in text-to-speech conversion: " ++ e])

/-- Expression `np.max(np.abs(audio_array))` over the decoded integer samples (the code
guards the empty-array case separately, see `wfRaw`). -/
def maxAbs (l : List ℤ) : ℕ :=
  l.foldr (fun x m => max x.natAbs m) 0

/-- Expression `audio_array / np.max(np.abs(audio_array)) if np.max(np.abs(audio_array)) > 0
else audio_array`: normalization guarded against the all-zero signal. -/
def normalize (l : List ℤ) : List ℚ :=
  if 0 < maxAbs l then l.map (fun x : ℤ => (x : ℚ) / (maxAbs l : ℚ))
  else l.map (fun x : ℤ => (x : ℚ))

/-- Python extended slice `l[::k]`: every k-th element starting at index 0
(call sites always pass `k ≥ 1`). -/
def stride {α : Type} (k : ℕ) : List α → List α
  | [] => []
  | x :: xs => x :: stride k (xs.drop (k - 1))
termination_by l => l.length
decreasing_by simp [List.length_drop]; omega

/-- Statement `if len(audio_array) > 10000: factor = len(audio_array) // 10000;
audio_array = audio_array[::factor][:10000]`. -/
def downsample (l : List ℚ) : List ℚ :=
  if 10000 < l.length then (stride (l.length / 10000) l).take 10000 else l

/-- The amplitude point sequence `display_waveform` hands to `ax.plot`:
normalization followed by downsampling. -/
def waveformPoints (samples : List ℤ) : List ℚ :=
  downsample (normalize samples)

/-- Body of `display_waveform` (everything inside the `try`).  The input is the
result of `AudioSegment.from_file` + `get_array_of_samples`: `none` models a
decode exception, otherwise decoded integer samples plus the frame rate (used
only for the time axis of the figure, which carries no further data).  An empty
sample array makes `np.max` raise, which the boundary catches. -/
def wfRaw (decoded : Option (List ℤ × ℕ)) : Except String (List ℚ) :=
  match decoded with
  | none => Except.error "unreadable audio file"
  | some (samples, _) =>
    if samples.isEmpty then Except.error "zero-size array passed to reduction"
    else Except.ok (waveformPoints samples)

/-- Method `display_waveform`: the `try/except Exception` boundary around `wfRaw`. -/
def display_waveform (decoded : Option (List ℤ × ℕ)) : Option (List ℚ) × List String :=
  match wfRaw decoded with
  | Except.ok pts => (some pts, [])
  | Except.error e => (none, ["❌ Error displaying waveform: " ++ e])

/-- Structural model of Python `str.replace` on character lists (fuel-driven so
that it reduces inside the kernel; fuel is the list length, sufficient for
non-empty patterns). -/
def replaceAux (pat rep : List Char) : ℕ → List Char → List Char
  | _, [] => []
  | 0, l => l
  | fuel + 1, c :: cs =>
    if pat.isPrefixOf (c :: cs) then
      rep ++ replaceAux pat rep fuel ((c :: cs).drop pat.length)
    else c :: replaceAux pat rep fuel cs

/-- Python `s.replace(pat, rep)` for non-empty `pat`. -/
def pyReplace (s pat rep : String) : String :=
  String.mk (replaceAux pat.data rep.data s.data.length s.data)

/-- Python `s.endswith(suffix)`. -/
def pyEndsWith (s suffix : String) : Bool :=
  suffix.data.isSuffixOf s.data

/-- Outcome of the external recognition call `recognizer.recognize_google`
(plus any later exception inside the `try`): success with a transcription, or
one of the three exception classes the code distinguishes. -/
inductive RecogOutcome where
  | success (t : String)
  | unknownValue
  | requestError (m : String)
  | otherError (m : String)
deriving DecidableEq

/-- The exception escaping the body of `speech_to_text`, matched by the three
`except` clauses. -/
inductive SttExn where
  | unknownValue
  | requestError (m : String)
  | otherError (m : String)
deriving DecidableEq

/-- Body of `speech_to_text` (everything inside the `try`).  `tmpName` is the
name `tempfile.NamedTemporaryFile(delete=False, suffix='.wav')` produced; the
uploaded bytes are written there.  When the upload is named `*.mp3` the file is
transcoded to `temp_filename.replace('.mp3', '.wav')`.  Returns the
`Except`-valued transcription, the list of temporary files existing when the
body exits, and the emitted messages.  Note the source removes the temporary
file (`os.remove`) only on the success path, inside the `try`. -/
def sttRaw (audioName tmpName : String) (o : RecogOutcome) :
    Except SttExn String × List String × List String :=
  let files0 := [tmpName]
  let ms0 := ["🎧 Processing audio file..."]
  let step :=
    if pyEndsWith audioName ".mp3" then
      let wav_filename := pyReplace tmpName ".mp3" ".wav"
      (wav_filename, files0.insert wav_filename)
    else (tmpName, files0)
  let ms1 := ms0 ++ ["🔄 Converting speech to text..."]
  match o with
  | RecogOutcome.success t =>
      (Except.ok t, step.2.erase step.1, ms1 ++ ["📝 Transcription complete!"])
  | RecogOutcome.unknownValue => (Except.error SttExn.unknownValue, step.2, ms1)
  | RecogOutcome.requestError m => (Except.error (SttExn.requestError m), step.2, ms1)
  | RecogOutcome.otherError m => (Except.error (SttExn.otherError m), step.2, ms1)

/-- The message each `except` clause of `speech_to_text` emits. -/
def sttErrMsg : SttExn → String
  | SttExn.unknownValue => "❌ Could not understand the audio."
  | SttExn.requestError m =>
      "❌ Request error from Google Speech Recognition service: " ++ m
  | SttExn.otherError m => "❌ Error in speech-to-text conversion: " ++ m

/-- Method `speech_to_text`: the `try/except` boundary around `sttRaw`; each caught
exception becomes a `None` return plus its message.  Second component: the
temporary files still existing after the call returns. -/
def speech_to_text (audioName tmpName : String) (o : RecogOutcome) :
    Option String × List String × List String :=
  let r := sttRaw audioName tmpName o
  match r.1 with
  | Except.ok t => (some t, r.2.1, r.2.2)
  | Except.error e => (none, r.2.1, r.2.2 ++ [sttErrMsg e])

/-- The synthesis-request flow of `main` (tab 1): `set_language(code)` and
`set_voice_speed(speed)` are called with their return values ignored, then
`text_to_speech` runs whenever the text is non-empty. -/
def requestSynthesis
    (resample : AudioSegment → ℕ → AudioSegment)
    (decode : List ℕ → Option AudioSegment)
    (encode : AudioSegment → List ℕ)
    (engine : String → String → Option (List ℕ))
    (st : ProcState) (fs : FS) (code speed text : String) (timestamp : ℕ) :
    Option String × FS × List String :=
  let l := set_language st code
  let v := set_voice_speed l.2.1 speed
  if text ≠ "" then
    let r := text_to_speech resample decode encode engine v.2.1 fs text timestamp
      "output.mp3"
    (r.1, r.2.1, l.2.2 ++ v.2.2 ++ r.2.2)
  else
    (none, fs, l.2.2 ++ v.2.2 ++ ["⚠️ Please enter some text first."])

/-! ### Helper lemmas -/

/-- Reading back a freshly written file yields the written content. -/
theorem fsRead_fsWrite_self (fs : FS) (p : String) (c : List ℕ) :
    fsRead (fsWrite fs p c) p = some c := by
  simp [fsRead, fsWrite, List.lookup]

/-- Normalization preserves the number of samples. -/
theorem length_normalize (l : List ℤ) : (normalize l).length = l.length := by
  unfold normalize
  split
  · rw [List.length_map]
  · rw [List.length_map]

/-- On an all-zero signal the maximum absolute sample is 0. -/
theorem maxAbs_eq_zero {l : List ℤ} (h : ∀ x ∈ l, x = 0) : maxAbs l = 0 := by
  induction l with
  | nil => rfl
  | cons x xs ih =>
    have hx : x = 0 := h x (List.mem_cons_self x xs)
    have hxs : maxAbs xs = 0 := ih fun y hy => h y (List.mem_cons_of_mem x hy)
    subst hx
    simp only [maxAbs, List.foldr_cons] at hxs ⊢
    simp [hxs]

/-- On an all-zero signal normalization takes the guarded (division-free)
branch and returns the raw signal. -/
theorem normalize_allzero {l : List ℤ} (h : ∀ x ∈ l, x = 0) :
    normalize l = l.map (fun x : ℤ => (x : ℚ)) := by
  unfold normalize
  rw [maxAbs_eq_zero h]
  simp

/-- Normalizing a replicated zero signal yields the replicated zero signal. -/
theorem normalize_replicate_zero (n : ℕ) :
    normalize (List.replicate n 0) = List.replicate n (0 : ℚ) := by
  rw [normalize_allzero (fun x hx => List.eq_of_mem_replicate hx)]
  rw [List.map_replicate]
  norm_num

/-- Slicing with step 1 is the identity. -/
theorem stride_one {α : Type} (l : List α) : stride 1 l = l := by
  induction l with
  | nil => simp [stride]
  | cons x xs ih =>
    rw [stride]
    simpa using ih

/-- Every element of a slice is an element of the list (length-bounded
induction mirroring the recursion of `stride`). -/
theorem stride_subset_aux {α : Type} (k : ℕ) :
    ∀ (n : ℕ) (l : List α), l.length ≤ n → ∀ a, a ∈ stride k l → a ∈ l := by
  intro n
  induction n with
  | zero =>
    intro l hl a ha
    have hnil : l = [] := List.length_eq_zero.1 (Nat.le_zero.1 hl)
    subst hnil
    simp [stride] at ha
  | succ n ih =>
    intro l hl a ha
    cases l with
    | nil => simp [stride] at ha
    | cons x xs =>
      rw [stride] at ha
      rcases List.mem_cons.1 ha with h1 | h2
      · exact h1 ▸ List.mem_cons_self x xs
      · have hlen : (xs.drop (k - 1)).length ≤ n := by
          rw [List.length_drop]
          simp only [List.length_cons] at hl
          omega
        exact List.mem_cons_of_mem x
          (List.drop_subset _ _ (ih (xs.drop (k - 1)) hlen a h2))

/-- Every plotted point after downsampling occurs in the input sequence. -/
theorem mem_of_mem_downsample {q : ℚ} {l : List ℚ} (h : q ∈ downsample l) :
    q ∈ l := by
  unfold downsample at h
  split at h
  · exact stride_subset_aux _ _ _ le_rfl q (List.take_subset _ _ h)
  · exact h

/-! ### Claim theorems -/

/-- C10: a failed selection leaves the selection state unchanged:
`set_language` with a code outside the language table returns `False` and keeps
the state, and `set_voice_speed` with a tier outside the speed table returns
`False` and keeps the state. -/
theorem c10_failed_selection_frame (st : ProcState) (code speed : String)
    (h1 : languages.lookup code = none) (h2 : voice_speeds.lookup speed = none) :
    (set_language st code).1 = false ∧ (set_language st code).2.1 = st ∧
    (set_voice_speed st speed).1 = false ∧ (set_voice_speed st speed).2.1 = st := by
  simp [set_language, set_voice_speed, h1, h2]

/-- Witness for C10 at the concrete invalid inputs "xx" and "warp". -/
theorem c10_failed_selection_frame_witness :
    languages.lookup "xx" = none ∧ voice_speeds.lookup "warp" = none ∧
    ((set_language initState "xx").1 = false ∧
     (set_language initState "xx").2.1 = initState ∧
     (set_voice_speed initState "warp").1 = false ∧
     (set_voice_speed initState "warp").2.1 = initState) :=
  ⟨by decide, by decide,
   c10_failed_selection_frame initState "xx" "warp" (by decide) (by decide)⟩

/-- C1 counterexample: when recognition fails with `UnknownValueError`, the
`except` clause returns without deleting the temporary file, so the call leaves
a temporary file behind — refuting the claim that every exit path deletes all
temporary files. -/
theorem c1_counterexample :
    (speech_to_text "a.wav" "/tmp/t1.wav" RecogOutcome.unknownValue).2.1 ≠ [] := by
  decide

/-- C1 (amended): the temporary file is deleted before return only on the
successful-recognition exit path; on every error exit (`UnknownValueError`,
`RequestError`, or any other exception) the temporary file is left behind.
The hypothesis says the generated temporary name contains no ".mp3", as
`tempfile.NamedTemporaryFile(suffix='.wav')` guarantees. -/
theorem c1_temp_cleanup (audioName tmpName t m : String)
    (h : pyReplace tmpName ".mp3" ".wav" = tmpName) :
    (speech_to_text audioName tmpName (RecogOutcome.success t)).2.1 = [] ∧
    (speech_to_text audioName tmpName RecogOutcome.unknownValue).2.1 = [tmpName] ∧
    (speech_to_text audioName tmpName (RecogOutcome.requestError m)).2.1 = [tmpName] ∧
    (speech_to_text audioName tmpName (RecogOutcome.otherError m)).2.1 = [tmpName] := by
  cases hm : pyEndsWith audioName ".mp3" <;>
    simp [speech_to_text, sttRaw, hm, h, List.insert]

/-- Witness for C1 (amended) at a concrete mp3 upload and temporary name. -/
theorem c1_temp_cleanup_witness :
    pyReplace "/tmp/t2.wav" ".mp3" ".wav" = "/tmp/t2.wav" ∧
    ((speech_to_text "b.mp3" "/tmp/t2.wav" (RecogOutcome.success "hi")).2.1 = [] ∧
     (speech_to_text "b.mp3" "/tmp/t2.wav" RecogOutcome.unknownValue).2.1 =
       ["/tmp/t2.wav"] ∧
     (speech_to_text "b.mp3" "/tmp/t2.wav" (RecogOutcome.requestError "oops")).2.1 =
       ["/tmp/t2.wav"] ∧
     (speech_to_text "b.mp3" "/tmp/t2.wav" (RecogOutcome.otherError "oops")).2.1 =
       ["/tmp/t2.wav"]) :=
  ⟨by decide, c1_temp_cleanup "b.mp3" "/tmp/t2.wav" "hi" "oops" (by decide)⟩

/-- C9: every internal error of the three flow operations is caught at the
operation boundary, surfaced as a user-visible error message, and turned into a
`None` return instead of propagating to the caller: whenever the body of
`text_to_speech`, `speech_to_text`, or `display_waveform` raises, the wrapper
returns `none` together with the corresponding boundary error message. -/
theorem c9_no_exception_propagation :
    (∀ resample decode encode engine st fs text ts ofn e,
      (ttsRaw resample decode encode engine st fs text ts ofn).1 =
        Except.error e →
      (text_to_speech resample decode encode engine st fs text ts ofn).1 = none ∧
      ("❌ Error in text-to-speech conversion: " ++ e) ∈
        (text_to_speech resample decode encode engine st fs text ts ofn).2.2) ∧
    (∀ audioName tmpName o ex,
      (sttRaw audioName tmpName o).1 = Except.error ex →
      (speech_to_text audioName tmpName o).1 = none ∧
      sttErrMsg ex ∈ (speech_to_text audioName tmpName o).2.2) ∧
    (∀ decoded e, wfRaw decoded = Except.error e →
      display_waveform decoded =
        (none, ["❌ Error displaying waveform: " ++ e])) := by
  refine ⟨?_, ?_, ?_⟩
  · intro resample decode encode engine st fs text ts ofn e he
    simp [text_to_speech, he]
  · intro audioName tmpName o ex he
    simp [speech_to_text, he]
  · intro decoded e he
    simp [display_waveform, he]

/-- Witness for C9: one concrete erroring run of each flow operation. -/
theorem c9_no_exception_propagation_witness :
    ((text_to_speech (fun a _ => a) (fun _ => none)
        (fun a => a.raw_data.map Int.natAbs) (fun _ _ => none)
        initState [] "hi" 0 "output.mp3").1 = none ∧
      ("❌ Error in text-to-speech conversion: " ++ "tts engine failure") ∈
        (text_to_speech (fun a _ => a) (fun _ => none)
          (fun a => a.raw_data.map Int.natAbs) (fun _ _ => none)
          initState [] "hi" 0 "output.mp3").2.2) ∧
    ((speech_to_text "a.wav" "/tmp/t3.wav" RecogOutcome.unknownValue).1 = none ∧
      sttErrMsg SttExn.unknownValue ∈
        (speech_to_text "a.wav" "/tmp/t3.wav" RecogOutcome.unknownValue).2.2) ∧
    (display_waveform none =
      (none, ["❌ Error displaying waveform: " ++ "unreadable audio file"])) :=
  ⟨c9_no_exception_propagation.1 (fun a _ => a) (fun _ => none)
      (fun a => a.raw_data.map Int.natAbs) (fun _ _ => none)
      initState [] "hi" 0 "output.mp3" "tts engine failure" rfl,
   c9_no_exception_propagation.2.1 "a.wav" "/tmp/t3.wav"
      RecogOutcome.unknownValue SttExn.unknownValue rfl,
   c9_no_exception_propagation.2.2 none "unreadable audio file" rfl⟩

/-- C2: with the 'normal' speed tier selected (multiplier 1.0),
`text_to_speech` skips speed adjustment entirely: the artifact the TTS engine
wrote is still at the returned path byte-for-byte unchanged. -/
theorem c2_normal_speed_noop
    (resample : AudioSegment → ℕ → AudioSegment)
    (decode : List ℕ → Option AudioSegment)
    (encode : AudioSegment → List ℕ)
    (engine : String → String → Option (List ℕ))
    (st : ProcState) (fs : FS) (text : String) (ts : ℕ) (ofn : String)
    (bytes : List ℕ)
    (h1 : st.voice_speed = "normal")
    (h2 : engine st.current_language text = some bytes) :
    (text_to_speech resample decode encode engine st fs text ts ofn).1 =
      some ("speech_outputs/" ++ toString ts ++ "_" ++ ofn) ∧
    fsRead (text_to_speech resample decode encode engine st fs text ts ofn).2.1
      ("speech_outputs/" ++ toString ts ++ "_" ++ ofn) = some bytes := by
  simp [text_to_speech, ttsRaw, h1, h2, fsRead_fsWrite_self]

/-- Witness for C2 at a concrete engine output. -/
theorem c2_normal_speed_noop_witness :
    initState.voice_speed = "normal" ∧
    ((text_to_speech (fun a _ => a) (fun _ => none)
        (fun a => a.raw_data.map Int.natAbs) (fun _ _ => some [9, 8, 7])
        initState [] "hi" 3 "output.mp3").1 =
      some ("speech_outputs/" ++ toString 3 ++ "_" ++ "output.mp3") ∧
     fsRead (text_to_speech (fun a _ => a) (fun _ => none)
        (fun a => a.raw_data.map Int.natAbs) (fun _ _ => some [9, 8, 7])
        initState [] "hi" 3 "output.mp3").2.1
      ("speech_outputs/" ++ toString 3 ++ "_" ++ "output.mp3") = some [9, 8, 7]) :=
  ⟨rfl, c2_normal_speed_noop (fun a _ => a) (fun _ => none)
    (fun a => a.raw_data.map Int.natAbs) (fun _ _ => some [9, 8, 7])
    initState [] "hi" 3 "output.mp3" [9, 8, 7] rfl rfl⟩

/-- C3: on a silent (all-zero, non-empty) decoded signal the waveform renderer
takes the guarded branch, so no division happens: normalization returns the
raw signal unchanged, the figure is produced (no error), and every plotted
amplitude is 0 — a flat line. -/
theorem c3_silent_no_division (samples : List ℤ) (rate : ℕ)
    (h0 : samples ≠ []) (hz : ∀ x ∈ samples, x = 0) :
    normalize samples = samples.map (fun x : ℤ => (x : ℚ)) ∧
    (display_waveform (some (samples, rate))).1 = some (waveformPoints samples) ∧
    (∀ q ∈ waveformPoints samples, q = 0) := by
  have hn := normalize_allzero hz
  refine ⟨hn, ?_, ?_⟩
  · have he : samples.isEmpty = false := by
      cases samples with
      | nil => exact absurd rfl h0
      | cons a l => rfl
    simp [display_waveform, wfRaw, he]
  · intro q hq
    unfold waveformPoints at hq
    have hql : q ∈ normalize samples := mem_of_mem_downsample hq
    rw [hn] at hql
    rcases List.mem_map.1 hql with ⟨x, hx, hxq⟩
    rw [hz x hx] at hxq
    simpa using hxq.symm

/-- Witness for C3 on a concrete three-sample silent signal. -/
theorem c3_silent_no_division_witness :
    ([(0 : ℤ), 0, 0] ≠ []) ∧ (∀ x ∈ [(0 : ℤ), 0, 0], x = 0) ∧
    (normalize [(0 : ℤ), 0, 0] = [(0 : ℤ), 0, 0].map (fun x : ℤ => (x : ℚ)) ∧
     (display_waveform (some ([(0 : ℤ), 0, 0], 8000))).1 =
       some (waveformPoints [(0 : ℤ), 0, 0]) ∧
     (∀ q ∈ waveformPoints [(0 : ℤ), 0, 0], q = 0)) :=
  ⟨by decide, by decide,
   c3_silent_no_division [(0 : ℤ), 0, 0] 8000 (by decide) (by decide)⟩

/-- C4: for every decoded signal of length at least 10000, the amplitude point
sequence `display_waveform` produces after downsampling has length at most
10000. -/
theorem c4_downsample_bound (samples : List ℤ) (rate : ℕ)
    (h : 10000 ≤ samples.length) :
    (display_waveform (some (samples, rate))).1 = some (waveformPoints samples) ∧
    (waveformPoints samples).length ≤ 10000 := by
  have h0 : samples ≠ [] := by
    intro hn
    rw [hn] at h
    simp at h
  have he : samples.isEmpty = false := by
    cases samples with
    | nil => exact absurd rfl h0
    | cons a l => rfl
  refine ⟨by simp [display_waveform, wfRaw, he], ?_⟩
  unfold waveformPoints downsample
  rw [length_normalize]
  split
  case isTrue h1 =>
    rw [List.length_take]
    exact min_le_left _ _
  case isFalse h1 =>
    rw [length_normalize]
    omega

/-- Witness for C4 on a concrete signal of exactly 10000 samples. -/
theorem c4_downsample_bound_witness :
    10000 ≤ (List.replicate 10000 (0 : ℤ)).length ∧
    ((display_waveform (some (List.replicate 10000 (0 : ℤ), 8000))).1 =
       some (waveformPoints (List.replicate 10000 (0 : ℤ))) ∧
     (waveformPoints (List.replicate 10000 (0 : ℤ))).length ≤ 10000) :=
  ⟨by rw [List.length_replicate],
   c4_downsample_bound (List.replicate 10000 (0 : ℤ)) 8000
     (by rw [List.length_replicate])⟩

/-- C5 counterexample: for an input of length 10001 the step is
N = 10001 / 10000 = 1, so the claimed output — every Nth sample of the
normalized signal, here the entire 10001-point signal — differs from what
`display_waveform` plots, which is truncated to the first 10000 points. -/
theorem c5_counterexample :
    waveformPoints (List.replicate 10001 (0 : ℤ)) ≠
      stride ((List.replicate 10001 (0 : ℤ)).length / 10000)
        (normalize (List.replicate 10001 (0 : ℤ))) := by
  intro hEq
  have hd : (10001 : ℕ) / 10000 = 1 := by norm_num
  have hst : stride ((List.replicate 10001 (0 : ℤ)).length / 10000)
      (normalize (List.replicate 10001 (0 : ℤ))) = List.replicate 10001 (0 : ℚ) := by
    rw [normalize_replicate_zero, List.length_replicate, hd, stride_one]
  have hwf : waveformPoints (List.replicate 10001 (0 : ℤ)) =
      (List.replicate 10001 (0 : ℚ)).take 10000 := by
    unfold waveformPoints downsample
    rw [normalize_replicate_zero, List.length_replicate,
      if_pos (by norm_num : (10000 : ℕ) < 10001), hd, stride_one]
  rw [hwf, hst] at hEq
  have hlen := congrArg List.length hEq
  rw [List.length_take, List.length_replicate] at hlen
  omega

/-- C5 (amended): for an input longer than 10000 samples, the plotted sequence
equals the every-Nth-sample subsequence of the normalized signal
(N = original_length / 10000) truncated to its first 10000 points. -/
theorem c5_every_nth_truncated (samples : List ℤ) (h : 10000 < samples.length) :
    waveformPoints samples =
      (stride (samples.length / 10000) (normalize samples)).take 10000 := by
  unfold waveformPoints downsample
  rw [length_normalize, if_pos h]

/-- Witness for C5 (amended) on a concrete signal of 10001 samples. -/
theorem c5_every_nth_truncated_witness :
    10000 < (List.replicate 10001 (0 : ℤ)).length ∧
    waveformPoints (List.replicate 10001 (0 : ℤ)) =
      (stride ((List.replicate 10001 (0 : ℤ)).length / 10000)
        (normalize (List.replicate 10001 (0 : ℤ)))).take 10000 :=
  ⟨by rw [List.length_replicate]; decide,
   c5_every_nth_truncated (List.replicate 10001 (0 : ℤ))
     (by rw [List.length_replicate]; decide)⟩

/-- C6 counterexample: requesting synthesis with the unsupported code "xx"
through the repository flow (`set_language`, whose return value `main` ignores,
then `text_to_speech`) reports the unsupported-code error, yet synthesis still
runs under the previously selected language ('en', for which the engine
succeeds) and an output audio file IS written — refuting the claim that no
output file is produced.  The engine parameter models gTTS succeeding exactly
on supported language codes. -/
theorem c6_counterexample :
    (set_language initState "xx").1 = false ∧
    (requestSynthesis (fun a _ => a) (fun _ => none)
        (fun a => a.raw_data.map Int.natAbs)
        (fun lang _ => if (languages.lookup lang).isSome then some [1, 2, 3] else none)
        initState [] "xx" "normal" "hello" 5).1 =
      some "speech_outputs/5_output.mp3" ∧
    fsRead (requestSynthesis (fun a _ => a) (fun _ => none)
        (fun a => a.raw_data.map Int.natAbs)
        (fun lang _ => if (languages.lookup lang).isSome then some [1, 2, 3] else none)
        initState [] "xx" "normal" "hello" 5).2.1 "speech_outputs/5_output.mp3" =
      some [1, 2, 3] :=
  ⟨by decide, by decide, by decide⟩

/-- C6 (amended): selecting a language code outside the supported set fails
with the unsupported-language error, returns `False`, and leaves the state
unchanged (and writes no file, since `set_language` never touches the file
system); but `text_to_speech` itself performs no language validation, so the
synthesis request then proceeds under the previously selected language — the
language of the subsequent call is `st.current_language`, unchanged. -/
theorem c6_unsupported_language
    (resample : AudioSegment → ℕ → AudioSegment)
    (decode : List ℕ → Option AudioSegment)
    (encode : AudioSegment → List ℕ)
    (engine : String → String → Option (List ℕ))
    (st : ProcState) (fs : FS) (code speed text : String) (ts : ℕ)
    (h1 : languages.lookup code = none) (h2 : text ≠ "") :
    (set_language st code).1 = false ∧
    (set_language st code).2.1 = st ∧
    ("❌ Unsupported language code: " ++ code) ∈ (set_language st code).2.2 ∧
    ((set_voice_speed st speed).2.1).current_language = st.current_language ∧
    (requestSynthesis resample decode encode engine st fs code speed text ts).1 =
      (text_to_speech resample decode encode engine (set_voice_speed st speed).2.1
        fs text ts "output.mp3").1 := by
  refine ⟨?_, ?_, ?_, ?_, ?_⟩
  · simp [set_language, h1]
  · simp [set_language, h1]
  · simp [set_language, h1]
  · unfold set_voice_speed
    cases voice_speeds.lookup speed <;> simp
  · simp [requestSynthesis, set_language, h1, h2]

/-- Witness for C6 (amended) at the concrete unsupported code "xx". -/
theorem c6_unsupported_language_witness :
    languages.lookup "xx" = none ∧ ("hi" : String) ≠ "" ∧
    ((set_language initState "xx").1 = false ∧
     (set_language initState "xx").2.1 = initState ∧
     ("❌ Unsupported language code: " ++ "xx") ∈ (set_language initState "xx").2.2 ∧
     ((set_voice_speed initState "fast").2.1).current_language =
       initState.current_language ∧
     (requestSynthesis (fun a _ => a) (fun _ => none)
         (fun a => a.raw_data.map Int.natAbs) (fun _ _ => none)
         initState [] "xx" "fast" "hi" 0).1 =
       (text_to_speech (fun a _ => a) (fun _ => none)
         (fun a => a.raw_data.map Int.natAbs) (fun _ _ => none)
         (set_voice_speed initState "fast").2.1 [] "hi" 0 "output.mp3").1) :=
  ⟨by decide, by decide,
   c6_unsupported_language (fun a _ => a) (fun _ => none)
     (fun a => a.raw_data.map Int.natAbs) (fun _ _ => none)
     initState [] "xx" "fast" "hi" 0 (by decide) (by decide)⟩

/-- C7: speed adjustment produces its output by reinterpreting the unmodified
raw sample data at a new nominal frame rate equal to the original rate times
the selected multiplier (the source computes `int(frame_rate * speed_factor)`;
the hypothesis states the product is a whole number `k`, as for the real audio
rates) and then resampling the result back to the original frame rate — a
pitch-coupled time-stretch — before re-exporting over the same path. -/
theorem c7_pitch_coupled_stretch
    (resample : AudioSegment → ℕ → AudioSegment)
    (decode : List ℕ → Option AudioSegment)
    (encode : AudioSegment → List ℕ)
    (st : ProcState) (fs : FS) (filepath : String)
    (content : List ℕ) (audio : AudioSegment) (factor : ℚ) (k : ℕ)
    (h1 : fsRead fs filepath = some content)
    (h2 : decode content = some audio)
    (h3 : voice_speeds.lookup st.voice_speed = some factor)
    (h4 : (audio.frame_rate : ℚ) * factor = (k : ℚ)) :
    adjust_audio_speed resample decode encode st fs filepath =
      (fsWrite fs filepath
        (encode (resample { raw_data := audio.raw_data, frame_rate := k }
          audio.frame_rate)),
       ["🔄 Audio speed adjusted to " ++ st.voice_speed]) := by
  have hk : pyInt ((audio.frame_rate : ℚ) * factor) = k := by
    rw [h4]
    unfold pyInt
    simp
  simp [adjust_audio_speed, h1, h2, h3, spawn, hk]

/-- Witness for C7: the 'fast' tier (multiplier 3/2) on a 24000 Hz segment. -/
theorem c7_pitch_coupled_stretch_witness :
    fsRead [("f.mp3", [1])] "f.mp3" = some [1] ∧
    voice_speeds.lookup "fast" = some (3 / 2) ∧
    (((24000 : ℕ) : ℚ) * (3 / 2) = ((36000 : ℕ) : ℚ)) ∧
    adjust_audio_speed (fun a r => { raw_data := a.raw_data, frame_rate := r })
        (fun _ => some { raw_data := [5, 6], frame_rate := 24000 })
        (fun a => a.raw_data.map Int.natAbs)
        { current_language := "en", voice_speed := "fast" } [("f.mp3", [1])]
        "f.mp3" =
      (fsWrite [("f.mp3", [1])] "f.mp3"
        ((fun a : AudioSegment => a.raw_data.map Int.natAbs)
          ((fun a : AudioSegment => fun r : ℕ =>
              { raw_data := a.raw_data, frame_rate := r })
            { raw_data := ([5, 6] : List ℤ), frame_rate := (36000 : ℕ) } 24000)),
       ["🔄 Audio speed adjusted to " ++ "fast"]) :=
  ⟨by decide, rfl, by norm_num,
   c7_pitch_coupled_stretch
     (fun a r => { raw_data := a.raw_data, frame_rate := r })
     (fun _ => some { raw_data := [5, 6], frame_rate := 24000 })
     (fun a => a.raw_data.map Int.natAbs)
     { current_language := "en", voice_speed := "fast" } [("f.mp3", [1])] "f.mp3"
     [1] { raw_data := [5, 6], frame_rate := 24000 } (3 / 2) 36000
     (by decide) rfl rfl (by norm_num)⟩

/-- C8: when speed adjustment fails at decode (corrupt input or unsupported
codec), the failure is caught inside `_adjust_audio_speed` and reported as an
error message, the artifact the TTS engine wrote stays on disk unmodified at
the returned path, and `text_to_speech` still returns that path — the synthesis
result is not discarded. -/
theorem c8_adjust_failure_preserved
    (resample : AudioSegment → ℕ → AudioSegment)
    (decode : List ℕ → Option AudioSegment)
    (encode : AudioSegment → List ℕ)
    (engine : String → String → Option (List ℕ))
    (st : ProcState) (fs : FS) (text : String) (ts : ℕ) (ofn : String)
    (bytes : List ℕ)
    (h1 : engine st.current_language text = some bytes)
    (h2 : st.voice_speed ≠ "normal")
    (h3 : decode bytes = none) :
    (text_to_speech resample decode encode engine st fs text ts ofn).1 =
      some ("speech_outputs/" ++ toString ts ++ "_" ++ ofn) ∧
    fsRead (text_to_speech resample decode encode engine st fs text ts ofn).2.1
      ("speech_outputs/" ++ toString ts ++ "_" ++ ofn) = some bytes ∧
    "❌ Error adjusting audio speed: decode failure" ∈
      (text_to_speech resample decode encode engine st fs text ts ofn).2.2 := by
  simp [text_to_speech, ttsRaw, adjust_audio_speed, h1, h2, h3,
    fsRead_fsWrite_self]

/-- Witness for C8: a decoder that always fails, with the 'fast' tier. -/
theorem c8_adjust_failure_preserved_witness :
    ({ current_language := "en", voice_speed := "fast" } : ProcState).voice_speed ≠
      "normal" ∧
    ((text_to_speech (fun a _ => a) (fun _ => none)
        (fun a => a.raw_data.map Int.natAbs) (fun _ _ => some [4])
        { current_language := "en", voice_speed := "fast" } [] "hi" 2
        "output.mp3").1 =
      some ("speech_outputs/" ++ toString 2 ++ "_" ++ "output.mp3") ∧
     fsRead (text_to_speech (fun a _ => a) (fun _ => none)
        (fun a => a.raw_data.map Int.natAbs) (fun _ _ => some [4])
        { current_language := "en", voice_speed := "fast" } [] "hi" 2
        "output.mp3").2.1
      ("speech_outputs/" ++ toString 2 ++ "_" ++ "output.mp3") = some [4] ∧
     "❌ Error adjusting audio speed: decode failure" ∈
       (text_to_speech (fun a _ => a) (fun _ => none)
         (fun a => a.raw_data.map Int.natAbs) (fun _ _ => some [4])
         { current_language := "en", voice_speed := "fast" } [] "hi" 2
         "output.mp3").2.2) :=
  ⟨by decide,
   c8_adjust_failure_preserved (fun a _ => a) (fun _ => none)
     (fun a => a.raw_data.map Int.natAbs) (fun _ _ => some [4])
     { current_language := "en", voice_speed := "fast" } [] "hi" 2 "output.mp3"
     [4] rfl (by decide) rfl⟩

end VoiceDetect
